import Mathlib

/-!
Shallow embedding of the local service orchestrator of the desktop shell
(the electron main process): port probing, bounded readiness waiting,
child process management, the IPC bridge surface, and the startup and
shutdown sequencing.  Definitions follow the source functions
`checkService`, `waitForService`, `checkOllama`, `startBackend`,
`startFrontend`, `checkAllServices`, the `restart-backend` IPC handler,
the `app.whenReady` startup sequence and the `before-quit` handler.
Asynchronous environment choices (TCP probe outcomes, process exit
delivery) are passed in explicitly; side effects are recorded as an
event trace.
-/

/-- Backend compute service port (`BACKEND_PORT` in the source). -/
def BACKEND_PORT : Nat := 8000

/-- Development asset server port (`FRONTEND_PORT` in the source). -/
def FRONTEND_PORT : Nat := 3000

/-- Language-model runtime port (`OLLAMA_PORT` in the source). -/
def OLLAMA_PORT : Nat := 11434

/-- Outcome of one TCP connection attempt issued by `checkService`: the
http request either fires its response callback, fires its error event
(connection refused or any other connection error), or fires its timeout
event. -/
inductive ConnOutcome where
  | established
  | refused
  | timedOut
  | otherError
deriving DecidableEq, Repr

/-- Promise layer of `checkService`: each of the three registered event
handlers calls `resolve` (never `reject`), so every outcome produces a
normal result; only the response callback resolves with `true`. -/
def checkServiceE : ConnOutcome → Except String Bool
  | .established => .ok true
  | .refused => .ok false
  | .timedOut => .ok false
  | .otherError => .ok false

/-- Boolean the `checkService` promise resolves with. -/
def checkService (oc : ConnOutcome) : Bool :=
  match checkServiceE oc with
  | .ok b => b
  | .error _ => false

/-- Environment oracle: the outcome of the n-th TCP probe issued by the
main process, counted in program order. -/
abbrev Oracle := Nat → ConnOutcome

/-- Loop of `waitForService`: `fuel` is the number of attempts remaining
and `used` the number of probes already made.  Mirrors the source loop
`for (let i = 0; i < maxAttempts; i++)`, returning `true` at the first
successful probe; the pair also reports the total number of probe
attempts performed. -/
def waitForServiceGo (probes : Nat → ConnOutcome) : Nat → Nat → Bool × Nat
  | 0, used => (false, used)
  | fuel + 1, used =>
      if checkService (probes used) then (true, used + 1)
      else waitForServiceGo probes fuel (used + 1)

/-- Readiness waiter `waitForService(port, maxAttempts)`: polls
`checkService` up to `maxAttempts` times, returning `true` on the first
success and `false` once the attempts are exhausted; the second
component counts the probe attempts actually performed. -/
def waitForService (probes : Nat → ConnOutcome) (maxAttempts : Nat) : Bool × Nat :=
  waitForServiceGo probes maxAttempts 0

theorem waitForServiceGo_all_fail (probes : Nat → ConnOutcome) :
    ∀ fuel used, (∀ i, used ≤ i → i < used + fuel → checkService (probes i) = false) →
      waitForServiceGo probes fuel used = (false, used + fuel) := by
  intro fuel
  induction fuel with
  | zero => intro used _; simp [waitForServiceGo]
  | succ n ih =>
      intro used h
      have h0 : checkService (probes used) = false :=
        h used (Nat.le_refl used) (Nat.lt_add_of_pos_right (Nat.succ_pos n))
      have hrec := ih (used + 1) (fun i hi1 hi2 => h i (Nat.le_of_succ_le hi1) (by omega))
      simp only [waitForServiceGo, h0, Bool.false_eq_true, if_false, hrec, Prod.mk.injEq]
      exact ⟨trivial, by omega⟩

theorem waitForServiceGo_first_success (probes : Nat → ConnOutcome) :
    ∀ k fuel used, checkService (probes (used + k)) = true → k < fuel →
      (∀ i, i < k → checkService (probes (used + i)) = false) →
      waitForServiceGo probes fuel used = (true, used + k + 1) := by
  intro k
  induction k with
  | zero =>
      intro fuel used hk hlt _
      obtain ⟨m, rfl⟩ := Nat.exists_eq_succ_of_ne_zero (Nat.pos_iff_ne_zero.mp hlt)
      simp only [Nat.add_zero] at hk
      simp [waitForServiceGo, hk]
  | succ k ih =>
      intro fuel used hk hlt hprev
      obtain ⟨m, rfl⟩ := Nat.exists_eq_succ_of_ne_zero (Nat.pos_iff_ne_zero.mp (Nat.lt_of_le_of_lt (Nat.zero_le _) hlt))
      have h0 : checkService (probes used) = false := by
        have := hprev 0 (Nat.succ_pos k)
        simpa using this
      have hrec := ih m (used + 1)
        (by have : used + 1 + k = used + (k + 1) := by omega
            rw [this]; exact hk)
        (by omega)
        (fun i hi => by
          have : used + 1 + i = used + (i + 1) := by omega
          rw [this]; exact hprev (i + 1) (by omega))
      simp only [waitForServiceGo, h0, Bool.false_eq_true, if_false, hrec, Prod.mk.injEq]
      exact ⟨trivial, by omega⟩

/-- C2: for every probe-outcome sequence and every `maxAttempts ≥ 1`,
`waitForService` returns `false` after exactly `maxAttempts` probe
attempts when no probe ever succeeds, and returns `true` after exactly
`k + 1` probe attempts when the first successful probe is attempt index
`k < maxAttempts` (performing no further attempts). -/
theorem waitForService_spec (probes : Nat → ConnOutcome) (maxAttempts : Nat)
    (_hmax : 1 ≤ maxAttempts) :
    ((∀ i, i < maxAttempts → checkService (probes i) = false) →
        waitForService probes maxAttempts = (false, maxAttempts)) ∧
    (∀ k, k < maxAttempts → checkService (probes k) = true →
        (∀ i, i < k → checkService (probes i) = false) →
        waitForService probes maxAttempts = (true, k + 1)) := by
  constructor
  · intro hall
    have := waitForServiceGo_all_fail probes maxAttempts 0
      (fun i _ hi2 => hall i (by omega))
    simpa [waitForService] using this
  · intro k hk hsucc hprev
    have := waitForServiceGo_first_success probes k maxAttempts 0
      (by simpa using hsucc) hk (fun i hi => by simpa using hprev i hi)
    simpa [waitForService] using this

/-- Witness for C2: a port that becomes reachable on the second attempt
makes `waitForService` return `true` after exactly 2 probe attempts. -/
theorem waitForService_spec_witness :
    waitForService (fun i => if i = 1 then ConnOutcome.established else ConnOutcome.refused) 3 =
      (true, 2) :=
  (waitForService_spec (fun i => if i = 1 then ConnOutcome.established else ConnOutcome.refused)
      3 (by omega)).2 1 (by omega) (by rfl)
    (fun i hi => by
      have h0 : i = 0 := Nat.lt_one_iff.mp hi
      subst h0; rfl)

/-- C3: for every outcome of the underlying TCP connection attempt, the
port prober resolves normally (never rejects past its boundary) with a
boolean, and that boolean is `true` exactly when the connection was
established within the timeout. -/
theorem checkService_never_throws (oc : ConnOutcome) :
    checkServiceE oc = Except.ok (checkService oc) ∧
    (checkService oc = true ↔ oc = ConnOutcome.established) := by
  cases oc <;> simp [checkServiceE, checkService]

/-- Observable side effects of the main process, recorded in program
order: TCP probes (with the port probed and the resolved boolean),
owned child spawns, the detached fallback spawn of the runtime,
termination signals sent via `kill()`, delivered `exit` callbacks,
error dialog boxes, and `services-status` pushes to the renderer. -/
inductive Event where
  | probe (port : Nat) (up : Bool)
  | spawn (service : String) (pid : Nat)
  | spawnDetached (service : String) (pid : Nat)
  | killSignal (pid : Nat)
  | exited (pid : Nat)
  | errorBox (title : String)
  | statusPush (ollama backend frontend : Bool)
deriving DecidableEq, Repr

/-- Mutable state of the main process.  `backendProcess` and
`frontendProcess` are the two stored handle variables of the source;
`live` lists the pids of owned child processes that have been spawned
and whose exit has not yet been delivered (sending a kill signal does
not by itself remove a pid from `live`: the operating system ends the
process later and only then is the exit callback delivered);
`nextPid` allocates fresh pids and `probeCtr` counts issued TCP probes
(indexing into the `Oracle`). -/
structure SysState where
  backendProcess : Option Nat
  frontendProcess : Option Nat
  live : List Nat
  nextPid : Nat
  probeCtr : Nat
deriving DecidableEq, Repr

/-- Single call to `checkService(port)` from the stateful code: consumes
the next oracle outcome and records the probe event. -/
def doProbe (o : Oracle) (port : Nat) (s : SysState) : Bool × SysState × List Event :=
  let b := checkService (o s.probeCtr)
  (b, { s with probeCtr := s.probeCtr + 1 }, [Event.probe port b])

/-- Stateful run of `waitForService(port, 30)`: performs the probes of
the pure `waitForService` against the oracle starting at the current
probe counter, recording one probe event per attempt. -/
def waitForServiceS (o : Oracle) (port : Nat) (maxAttempts : Nat) (s : SysState) :
    Bool × SysState × List Event :=
  let r := waitForService (fun i => o (s.probeCtr + i)) maxAttempts
  (r.1, { s with probeCtr := s.probeCtr + r.2 },
    (List.range r.2).map (fun i => Event.probe port (checkService (o (s.probeCtr + i)))))

/-- startBackend: if the backend port already answers, log and return
`true` without touching any state; otherwise spawn the backend child,
store its handle in `backendProcess`, and wait for readiness with the
default 30 attempts.  The spawned pid joins `live`. -/
def startBackend (o : Oracle) (s : SysState) : Bool × SysState × List Event :=
  let p := doProbe o BACKEND_PORT s
  if p.1 then (true, p.2.1, p.2.2)
  else
    let pid := p.2.1.nextPid
    let s1 : SysState :=
      { p.2.1 with
        backendProcess := some pid
        live := p.2.1.live ++ [pid]
        nextPid := pid + 1 }
    let w := waitForServiceS o BACKEND_PORT 30 s1
    (w.1, w.2.1, p.2.2 ++ [Event.spawn "backend" pid] ++ w.2.2)

/-- Exit callback registered on the backend handle in `startBackend`:
when the operating system delivers the exit of owned pid `pid`, the
callback logs the exit code and unconditionally clears the stored
`backendProcess` variable; the process itself is no longer live. -/
def backendExit (s : SysState) (pid : Nat) : SysState × List Event :=
  ({ s with backendProcess := none, live := s.live.erase pid }, [Event.exited pid])

/-- checkOllama: probe the runtime port; if it answers, report `true`.
Otherwise spawn `ollama serve` detached and unreferenced (the handle is
never stored and never owned), wait, and re-probe once, reporting that
second result. -/
def checkOllama (o : Oracle) (s : SysState) : Bool × SysState × List Event :=
  let p := doProbe o OLLAMA_PORT s
  if p.1 then (true, p.2.1, p.2.2)
  else
    let pid := p.2.1.nextPid
    let s1 : SysState := { p.2.1 with nextPid := pid + 1 }
    let p2 := doProbe o OLLAMA_PORT s1
    (p2.1, p2.2.1, p.2.2 ++ [Event.spawnDetached "ollama" pid] ++ p2.2.2)

/-- startFrontend: in development mode, probe the asset-server port,
spawn the dev server if it does not answer, store its handle in
`frontendProcess` and wait for readiness; outside development mode this
returns `true` immediately with no effect. -/
def startFrontend (o : Oracle) (isDev : Bool) (s : SysState) : Bool × SysState × List Event :=
  if isDev then
    let p := doProbe o FRONTEND_PORT s
    if p.1 then (true, p.2.1, p.2.2)
    else
      let pid := p.2.1.nextPid
      let s1 : SysState :=
        { p.2.1 with
          frontendProcess := some pid
          live := p.2.1.live ++ [pid]
          nextPid := pid + 1 }
      let w := waitForServiceS o FRONTEND_PORT 30 s1
      (w.1, w.2.1, p.2.2 ++ [Event.spawn "frontend" pid] ++ w.2.2)
  else (true, s, [])

/-- Status record sent to the renderer by `checkAllServices`. -/
structure ServicesStatus where
  ollama : Bool
  backend : Bool
  frontend : Bool
deriving DecidableEq, Repr

/-- checkAllServices: probe the runtime port and the backend port, then
push a status whose `frontend` field is the literal `true` (the
asset-server port is never probed).  No process is spawned or signaled
here. -/
def checkAllServices (o : Oracle) (s : SysState) : ServicesStatus × SysState × List Event :=
  let p1 := doProbe o OLLAMA_PORT s
  let p2 := doProbe o BACKEND_PORT p1.2.1
  (⟨p1.1, p2.1, true⟩, p2.2.1,
    p1.2.2 ++ p2.2.2 ++ [Event.statusPush p1.1 p2.1 true])

/-- Guarded kill of the stored backend handle, the shape shared by the
`restart-backend` handler and the `before-quit` handler: when a handle
is stored, send it a kill signal and null the variable; when the
variable is already null (for example after the exit callback ran),
skip the termination step entirely. -/
def killStoredBackend (s : SysState) : SysState × List Event :=
  match s.backendProcess with
  | some pid => ({ s with backendProcess := none }, [Event.killSignal pid])
  | none => (s, [])

/-- Handler of the `restart-backend` IPC channel: kill and clear the
stored backend handle if any, then run `startBackend`.  The kill is a
signal only; the handler does not wait for the exit callback of the old
process before `startBackend` may spawn a new one. -/
def restartBackend (o : Oracle) (s : SysState) : Bool × SysState × List Event :=
  let k := killStoredBackend s
  let r := startBackend o k.1
  (r.1, r.2.1, k.2 ++ r.2.2)

/-- Handler of `before-quit`: kill and clear the stored backend handle
if any, then kill and clear the stored frontend handle if any, and
return.  No waiting of any kind follows the kill signals. -/
def beforeQuit (s : SysState) : SysState × List Event :=
  let k := killStoredBackend s
  match k.1.frontendProcess with
  | some pid =>
      ({ k.1 with frontendProcess := none }, k.2 ++ [Event.killSignal pid])
  | none => (k.1, k.2)

/-- Startup sequence of `app.whenReady` (menu, window and tray creation
have no service effect and are omitted): check the runtime first,
showing an error box when it is not available; start the backend next
regardless of the runtime outcome, showing an error box on failure; and
start the frontend dev server last, only in development mode. -/
def whenReady (o : Oracle) (isDev : Bool) (s : SysState) : SysState × List Event :=
  let c := checkOllama o s
  let e1 := if c.1 then ([] : List Event) else [Event.errorBox "Ollama Not Found"]
  let b := startBackend o c.2.1
  let e2 := if b.1 then ([] : List Event) else [Event.errorBox "Backend Error"]
  let f := startFrontend o isDev b.2.1
  (f.2.1, c.2.2 ++ e1 ++ b.2.2 ++ e2 ++ f.2.2)

/-- Channels for which the source registers a handler with
`ipcMain.handle`. -/
def registeredChannels : List String :=
  ["get-services-status", "restart-backend", "open-file-dialog", "get-user-data-path"]

/-- Reply value of a successful IPC invocation. -/
inductive IpcReply where
  | statusReply (st : ServicesStatus)
  | boolReply (b : Bool)
  | pathsReply (ps : List String)
  | pathReply (p : String)
deriving DecidableEq, Repr

/-- Dispatch of `ipcRenderer.invoke(channel)` against the handlers the
source registers: the four registered channels run their handlers, and
invoking a channel with no registered handler rejects with an error
(electron IPC invoke semantics).  The file-picker selection and the
user-data path are host-environment inputs passed in explicitly. -/
def ipcInvoke (o : Oracle) (chan : String) (picked : List String) (userData : String)
    (s : SysState) : Except String (IpcReply × SysState × List Event) :=
  if chan = "get-services-status" then
    let r := checkAllServices o s
    .ok (.statusReply r.1, r.2.1, r.2.2)
  else if chan = "restart-backend" then
    let r := restartBackend o s
    .ok (.boolReply r.1, r.2.1, r.2.2)
  else if chan = "open-file-dialog" then
    .ok (.pathsReply picked, s, [])
  else if chan = "get-user-data-path" then
    .ok (.pathReply userData, s, [])
  else
    .error ("No handler registered for " ++ chan)

/-- Fresh main-process state right after startup of the model. -/
def initState : SysState := ⟨none, none, [], 1, 0⟩

/-- State in which the backend child with pid 1 is stored, live, and
owned. -/
def runningBackendState : SysState := ⟨some 1, none, [1], 2, 0⟩

/-- Oracle of an environment in which every TCP probe is refused. -/
def oDown : Oracle := fun _ => ConnOutcome.refused

theorem waitForServiceS_events (o : Oracle) (port maxAttempts : Nat) (s : SysState) :
    ∀ e ∈ (waitForServiceS o port maxAttempts s).2.2, ∃ b, e = Event.probe port b := by
  intro e he
  simp only [waitForServiceS, List.mem_map, List.mem_range] at he
  obtain ⟨i, _, rfl⟩ := he
  exact ⟨_, rfl⟩

theorem startBackend_events (o : Oracle) (s : SysState) :
    ∀ e ∈ (startBackend o s).2.2,
      (∃ b, e = Event.probe BACKEND_PORT b) ∨ e = Event.spawn "backend" s.nextPid := by
  intro e he
  by_cases h : checkService (o s.probeCtr) = true
  · simp only [startBackend, doProbe, h, if_true, List.mem_singleton] at he
    exact Or.inl ⟨_, he⟩
  · rw [Bool.not_eq_true] at h
    simp only [startBackend, doProbe, h, Bool.false_eq_true, if_false, List.append_assoc,
      List.mem_append, List.mem_singleton] at he
    rcases he with he | he | he
    · exact Or.inl ⟨_, he⟩
    · exact Or.inr he
    · exact Or.inl (waitForServiceS_events o BACKEND_PORT 30 _ e he)

theorem startBackend_head (o : Oracle) (s : SysState) :
    (startBackend o s).2.2.head? =
      some (Event.probe BACKEND_PORT (checkService (o s.probeCtr))) := by
  by_cases h : checkService (o s.probeCtr) = true
  · simp [startBackend, doProbe, h]
  · rw [Bool.not_eq_true] at h
    simp [startBackend, doProbe, h]

theorem startBackend_state (o : Oracle) (s : SysState) :
    (startBackend o s).2.1.frontendProcess = s.frontendProcess ∧
    (((startBackend o s).2.1.backendProcess = s.backendProcess ∧
        (startBackend o s).2.1.live = s.live ∧
        (startBackend o s).2.1.nextPid = s.nextPid) ∨
      ((startBackend o s).2.1.backendProcess = some s.nextPid ∧
        (startBackend o s).2.1.live = s.live ++ [s.nextPid] ∧
        (startBackend o s).2.1.nextPid = s.nextPid + 1)) := by
  by_cases h : checkService (o s.probeCtr) = true
  · refine ⟨?_, Or.inl ⟨?_, ?_, ?_⟩⟩ <;> simp [startBackend, doProbe, h, waitForServiceS]
  · rw [Bool.not_eq_true] at h
    refine ⟨?_, Or.inr ⟨?_, ?_, ?_⟩⟩ <;> simp [startBackend, doProbe, h, waitForServiceS]

theorem checkOllama_events (o : Oracle) (s : SysState) :
    ∀ e ∈ (checkOllama o s).2.2,
      (∃ b, e = Event.probe OLLAMA_PORT b) ∨ e = Event.spawnDetached "ollama" s.nextPid := by
  intro e he
  by_cases h : checkService (o s.probeCtr) = true
  · simp only [checkOllama, doProbe, h, if_true, List.mem_singleton] at he
    exact Or.inl ⟨_, he⟩
  · rw [Bool.not_eq_true] at h
    simp only [checkOllama, doProbe, h, Bool.false_eq_true, if_false, List.append_assoc,
      List.mem_append, List.mem_singleton] at he
    rcases he with he | he | he
    · exact Or.inl ⟨_, he⟩
    · exact Or.inr he
    · exact Or.inl ⟨_, he⟩

theorem checkOllama_head (o : Oracle) (s : SysState) :
    (checkOllama o s).2.2.head? =
      some (Event.probe OLLAMA_PORT (checkService (o s.probeCtr))) := by
  by_cases h : checkService (o s.probeCtr) = true
  · simp [checkOllama, doProbe, h]
  · rw [Bool.not_eq_true] at h
    simp [checkOllama, doProbe, h]

theorem checkOllama_fallback_iff (o : Oracle) (s : SysState) :
    (∃ p, Event.spawnDetached "ollama" p ∈ (checkOllama o s).2.2) ↔
      checkService (o s.probeCtr) = false := by
  by_cases h : checkService (o s.probeCtr) = true
  · simp [checkOllama, doProbe, h]
  · rw [Bool.not_eq_true] at h
    simp [checkOllama, doProbe, h]

theorem checkOllama_no_kill (o : Oracle) (s : SysState) :
    ∀ q, Event.killSignal q ∉ (checkOllama o s).2.2 := by
  intro q hq
  rcases checkOllama_events o s _ hq with ⟨b, hb⟩ | hb <;> simp at hb

theorem checkOllama_state (o : Oracle) (s : SysState) :
    (checkOllama o s).2.1.backendProcess = s.backendProcess ∧
    (checkOllama o s).2.1.frontendProcess = s.frontendProcess ∧
    (checkOllama o s).2.1.live = s.live := by
  by_cases h : checkService (o s.probeCtr) = true
  · refine ⟨?_, ?_, ?_⟩ <;> simp [checkOllama, doProbe, h]
  · rw [Bool.not_eq_true] at h
    refine ⟨?_, ?_, ?_⟩ <;> simp [checkOllama, doProbe, h]

theorem startFrontend_events (o : Oracle) (dev : Bool) (s : SysState) :
    ∀ e ∈ (startFrontend o dev s).2.2,
      (∃ b, e = Event.probe FRONTEND_PORT b) ∨ e = Event.spawn "frontend" s.nextPid := by
  intro e he
  cases dev with
  | false => simp [startFrontend] at he
  | true =>
      by_cases h : checkService (o s.probeCtr) = true
      · simp only [startFrontend, doProbe, h, if_true, List.mem_singleton] at he
        exact Or.inl ⟨_, he⟩
      · rw [Bool.not_eq_true] at h
        simp only [startFrontend, doProbe, h, Bool.false_eq_true, if_false, List.append_assoc,
          List.mem_append, List.mem_singleton, if_true] at he
        rcases he with he | he | he
        · exact Or.inl ⟨_, he⟩
        · exact Or.inr he
        · exact Or.inl (waitForServiceS_events o FRONTEND_PORT 30 _ e he)

theorem startFrontend_not_dev (o : Oracle) (s : SysState) :
    startFrontend o false s = (true, s, []) := by
  simp [startFrontend]

theorem startFrontend_head_dev (o : Oracle) (s : SysState) :
    (startFrontend o true s).2.2.head? =
      some (Event.probe FRONTEND_PORT (checkService (o s.probeCtr))) := by
  by_cases h : checkService (o s.probeCtr) = true
  · simp [startFrontend, doProbe, h]
  · rw [Bool.not_eq_true] at h
    simp [startFrontend, doProbe, h]

/-- C9: when the backend port is already reachable, `startBackend`
returns `true` after the single probe, spawns nothing, and leaves the
stored backend handle and the owned live set unchanged. -/
theorem startBackend_already_running (o : Oracle) (s : SysState)
    (h : checkService (o s.probeCtr) = true) :
    startBackend o s =
      (true, { s with probeCtr := s.probeCtr + 1 }, [Event.probe BACKEND_PORT true]) ∧
    (startBackend o s).2.1.backendProcess = s.backendProcess ∧
    (startBackend o s).2.1.live = s.live ∧
    (∀ n p, Event.spawn n p ∉ (startBackend o s).2.2) := by
  refine ⟨?_, ?_, ?_, ?_⟩
  · simp [startBackend, doProbe, h]
  · simp [startBackend, doProbe, h]
  · simp [startBackend, doProbe, h]
  · intro n p hp
    simp [startBackend, doProbe, h] at hp

/-- Witness for C9 at a concrete oracle and state. -/
theorem startBackend_already_running_witness :
    startBackend (fun _ => ConnOutcome.established) runningBackendState =
      (true, { runningBackendState with probeCtr := 1 },
        [Event.probe BACKEND_PORT true]) :=
  (startBackend_already_running (fun _ => ConnOutcome.established)
    runningBackendState rfl).1

/-- C10: every status produced by `checkAllServices` carries the
constant `true` in its `frontend` field, while the `ollama` and
`backend` fields are the results of the two actual probes; the
asset-server port is never probed, and the only events are the two
probes and the status push. -/
theorem checkAllServices_frontend_constant (o : Oracle) (s : SysState) :
    (checkAllServices o s).1.frontend = true ∧
    (checkAllServices o s).1.ollama = checkService (o s.probeCtr) ∧
    (checkAllServices o s).1.backend = checkService (o (s.probeCtr + 1)) ∧
    (∀ b, Event.probe FRONTEND_PORT b ∉ (checkAllServices o s).2.2) ∧
    (∀ e ∈ (checkAllServices o s).2.2,
      (∃ b, e = Event.probe OLLAMA_PORT b) ∨ (∃ b, e = Event.probe BACKEND_PORT b) ∨
        (∃ b1 b2, e = Event.statusPush b1 b2 true)) := by
  refine ⟨rfl, rfl, rfl, ?_, ?_⟩
  · intro b hb
    simp [checkAllServices, doProbe, FRONTEND_PORT, OLLAMA_PORT, BACKEND_PORT] at hb
  · intro e he
    simp only [checkAllServices, doProbe, List.append_assoc, List.mem_append,
      List.mem_singleton] at he
    rcases he with he | he | he
    · exact Or.inl ⟨_, he⟩
    · exact Or.inr (Or.inl ⟨_, he⟩)
    · exact Or.inr (Or.inr ⟨_, _, he⟩)

/-- C8: once the exit callback has cleared the stored backend handle,
the guarded termination step is an idempotent no-op that raises no
error: a subsequent restart request skips the kill entirely, behaves
exactly as a plain start, and its trace contains no kill signal;
moreover the guarded kill applied twice is a no-op the second time on
any state. -/
theorem terminate_after_exit_noop (o : Oracle) (s : SysState)
    (h : s.backendProcess = none) :
    killStoredBackend s = (s, []) ∧
    restartBackend o s = startBackend o s ∧
    (∀ q, Event.killSignal q ∉ (restartBackend o s).2.2) ∧
    (∀ s0 : SysState, killStoredBackend (killStoredBackend s0).1 =
      ((killStoredBackend s0).1, [])) := by
  have hk : killStoredBackend s = (s, []) := by
    simp [killStoredBackend, h]
  refine ⟨hk, ?_, ?_, ?_⟩
  · simp [restartBackend, hk]
  · intro q hq
    simp only [restartBackend, hk, List.nil_append] at hq
    rcases startBackend_events o s _ hq with ⟨b, hb⟩ | hb <;> simp at hb
  · intro s0
    cases h0 : s0.backendProcess with
    | none => simp [killStoredBackend, h0]
    | some pid => simp [killStoredBackend, h0]

/-- Witness for C8: a state freshly cleared by the exit callback. -/
theorem terminate_after_exit_noop_witness :
    killStoredBackend (backendExit ⟨some 5, none, [5], 6, 0⟩ 5).1 =
      ((backendExit ⟨some 5, none, [5], 6, 0⟩ 5).1, []) :=
  (terminate_after_exit_noop oDown (backendExit ⟨some 5, none, [5], 6, 0⟩ 5).1 rfl).1

/-- C1 counterexample: with the backend child pid 1 stored and live and
every probe refused, the restart handler sends one kill signal and then
spawns the new child pid 2 without ever observing the exit of pid 1: at
the end of the handler both owned processes are live at once, so the
restart did not await confirmed termination of the previous handle
before spawning. -/
theorem restart_two_live_processes :
    (restartBackend oDown runningBackendState).2.1.live = [1, 2] ∧
    (restartBackend oDown runningBackendState).2.1.backendProcess = some 2 ∧
    Event.spawn "backend" 2 ∈ (restartBackend oDown runningBackendState).2.2 ∧
    Event.exited 1 ∉ (restartBackend oDown runningBackendState).2.2 := by
  refine ⟨rfl, rfl, ?_, ?_⟩ <;> decide

/-- C1 amended: the restart handler clears the stored handle, sending it
exactly one kill signal, before any spawn; it never stores the old pid
again and stores at most the one freshly allocated pid; but it performs
no exit observation at all, so the previous process can still be live
when the new one is spawned. -/
theorem restart_clears_handle_before_spawn (o : Oracle) (s : SysState) (pid : Nat)
    (h : s.backendProcess = some pid) (hfresh : pid < s.nextPid) :
    (∃ tl, (restartBackend o s).2.2 = Event.killSignal pid :: tl ∧
        ∀ q, Event.killSignal q ∉ tl) ∧
    ((restartBackend o s).2.1.backendProcess = none ∨
      (restartBackend o s).2.1.backendProcess = some s.nextPid) ∧
    (restartBackend o s).2.1.backendProcess ≠ some pid ∧
    (∀ q, Event.exited q ∉ (restartBackend o s).2.2) := by
  have hk : killStoredBackend s = ({ s with backendProcess := none }, [Event.killSignal pid]) := by
    simp [killStoredBackend, h]
  have htrace : (restartBackend o s).2.2 =
      Event.killSignal pid :: (startBackend o { s with backendProcess := none }).2.2 := by
    simp [restartBackend, hk]
  have hstate : (restartBackend o s).2.1 =
      (startBackend o { s with backendProcess := none }).2.1 := by
    simp [restartBackend, hk]
  have hnokill : ∀ q, Event.killSignal q ∉
      (startBackend o { s with backendProcess := none }).2.2 := by
    intro q hq
    rcases startBackend_events o _ _ hq with ⟨b, hb⟩ | hb <;> simp at hb
  have hhandle := (startBackend_state o { s with backendProcess := none }).2
  refine ⟨⟨_, htrace, hnokill⟩, ?_, ?_, ?_⟩
  · rw [hstate]
    rcases hhandle with ⟨hb, _, _⟩ | ⟨hb, _, _⟩
    · exact Or.inl hb
    · exact Or.inr hb
  · rw [hstate]
    rcases hhandle with ⟨hb, _, _⟩ | ⟨hb, _, _⟩ <;> rw [hb]
    · simp
    · simp only [ne_eq, Option.some.injEq]
      omega
  · intro q hq
    rw [htrace] at hq
    rcases List.mem_cons.mp hq with hq | hq
    · simp at hq
    · rcases startBackend_events o _ _ hq with ⟨b, hb⟩ | hb <;> simp at hb

/-- Witness for the amended C1 at the concrete refused-probe run. -/
theorem restart_clears_handle_before_spawn_witness :
    (∃ tl, (restartBackend oDown runningBackendState).2.2 = Event.killSignal 1 :: tl ∧
        ∀ q, Event.killSignal q ∉ tl) ∧
    ((restartBackend oDown runningBackendState).2.1.backendProcess = none ∨
      (restartBackend oDown runningBackendState).2.1.backendProcess = some 2) ∧
    (restartBackend oDown runningBackendState).2.1.backendProcess ≠ some 1 ∧
    (∀ q, Event.exited q ∉ (restartBackend oDown runningBackendState).2.2) :=
  restart_clears_handle_before_spawn oDown runningBackendState 1 rfl (by decide)

/-- C7 counterexample: with the backend child pid 1 stored and live, the
before-quit handler sends the kill signal and returns at once: its whole
trace is that one signal, it observes no exit and performs no grace
waiting of any kind, and the signaled process is still live when the
handler lets the application close. -/
theorem beforeQuit_no_wait :
    beforeQuit runningBackendState =
      ({ runningBackendState with backendProcess := none }, [Event.killSignal 1]) ∧
    (beforeQuit runningBackendState).1.live = [1] ∧
    Event.exited 1 ∉ (beforeQuit runningBackendState).2 := by
  refine ⟨?_, rfl, ?_⟩ <;> decide

/-- C7 amended: on shutdown the orchestrator sends kill signals to
exactly the stored managed handles (backend first, then the dev asset
server when present), clears both stored variables and returns without
any exit observation; only stored managed handles are ever signaled,
and the runtime check never signals any process, so the external
runtime (including a fallback launch, spawned detached and never
stored) is never terminated by this system. -/
theorem beforeQuit_kills_only_managed (s : SysState) :
    (beforeQuit s).2 =
      (s.backendProcess.toList ++ s.frontendProcess.toList).map Event.killSignal ∧
    (beforeQuit s).1.backendProcess = none ∧
    (beforeQuit s).1.frontendProcess = none ∧
    (beforeQuit s).1.live = s.live ∧
    (∀ q, Event.killSignal q ∈ (beforeQuit s).2 →
      s.backendProcess = some q ∨ s.frontendProcess = some q) ∧
    (∀ q, Event.exited q ∉ (beforeQuit s).2) ∧
    (∀ o s1 q, Event.killSignal q ∉ (checkOllama o s1).2.2) := by
  refine ⟨?_, ?_, ?_, ?_, ?_, ?_, fun o s1 q => checkOllama_no_kill o s1 q⟩ <;>
    rcases hb : s.backendProcess with _ | p <;>
    rcases hf : s.frontendProcess with _ | r <;>
    simp [beforeQuit, killStoredBackend, hb, hf]

/-- State after the owned backend exited once more (exit delivered, the
callback cleared the handle) following earlier start attempts; the state
carries no restart counter of any kind. -/
def exhaustedState : SysState := (backendExit ⟨some 8, none, [8], 9, 40⟩ 8).1

/-- C4 counterexample: the main-process state carries no restart counter
and the code never marks anything Degraded: however many backend exits
preceded, the status check emits the same plain probe status as a fresh
state, performs no start attempt and no kill, and leaves the cleared
handle cleared — nothing surfaces a persistent Degraded error distinct
from an ordinary down status, and no bridge call resets any counter. -/
theorem no_degraded_marking :
    (checkAllServices oDown exhaustedState).1 = ⟨false, false, true⟩ ∧
    (checkAllServices oDown exhaustedState).1 = (checkAllServices oDown initState).1 ∧
    (∀ n p, Event.spawn n p ∉ (checkAllServices oDown exhaustedState).2.2) ∧
    (∀ q, Event.killSignal q ∉ (checkAllServices oDown exhaustedState).2.2) ∧
    (checkAllServices oDown exhaustedState).2.1.backendProcess = none := by
  refine ⟨rfl, rfl, ?_, ?_, rfl⟩
  · intro n p hp
    simp [checkAllServices, doProbe] at hp
  · intro q hq
    simp [checkAllServices, doProbe] at hq

/-- C4 amended: the code maintains no restart counter, no cap, and no
Degraded state, and makes no automatic start attempt at all: the status
check spawns nothing, signals nothing, changes no stored handle, no
owned process and no pid source, and always pushes the plain
three-boolean probe status; after an exit clears the backend handle,
only an explicit restart request through the bridge starts the backend
again. -/
theorem status_check_never_restarts (o : Oracle) (s : SysState) :
    (checkAllServices o s).2.1.backendProcess = s.backendProcess ∧
    (checkAllServices o s).2.1.frontendProcess = s.frontendProcess ∧
    (checkAllServices o s).2.1.live = s.live ∧
    (checkAllServices o s).2.1.nextPid = s.nextPid ∧
    (∀ n p, Event.spawn n p ∉ (checkAllServices o s).2.2) ∧
    (∀ q, Event.killSignal q ∉ (checkAllServices o s).2.2) ∧
    (checkAllServices o s).1 =
      ⟨checkService (o s.probeCtr), checkService (o (s.probeCtr + 1)), true⟩ := by
  refine ⟨rfl, rfl, rfl, rfl, ?_, ?_, rfl⟩
  · intro n p hp
    simp [checkAllServices, doProbe] at hp
  · intro q hq
    simp [checkAllServices, doProbe] at hq

/-- C5: a restart request for an external or unknown service has no
registered bridge channel, so invoking it yields the defined rejection
and runs no handler (no process is signaled or spawned); the only
restart channel is restart-backend, whose handler signals only the
stored managed backend handle and spawns only the managed backend. -/
theorem bridge_restart_external_rejected (o : Oracle) (c : String)
    (picked : List String) (userData : String) (s : SysState)
    (h : c ∉ registeredChannels) :
    ipcInvoke o c picked userData s =
      Except.error ("No handler registered for " ++ c) ∧
    (∀ q, Event.killSignal q ∈ (restartBackend o s).2.2 →
      s.backendProcess = some q) ∧
    (∀ n p, Event.spawn n p ∈ (restartBackend o s).2.2 → n = "backend") := by
  simp only [registeredChannels, List.mem_cons, List.not_mem_nil, or_false, not_or] at h
  obtain ⟨h1, h2, h3, h4⟩ := h
  refine ⟨?_, ?_, ?_⟩
  · simp [ipcInvoke, h1, h2, h3, h4]
  · intro q hq
    rcases hb : s.backendProcess with _ | pid <;>
      simp only [restartBackend, killStoredBackend, hb, List.nil_append,
        List.cons_append, List.nil_append, List.mem_cons] at hq
    · rcases startBackend_events o _ _ hq with ⟨b, he⟩ | he <;> simp at he
    · rcases hq with hq | hq
      · simp only [Event.killSignal.injEq] at hq
        rw [hq]
      · rcases startBackend_events o _ _ hq with ⟨b, he⟩ | he <;> simp at he
  · intro n p hp
    rcases hb : s.backendProcess with _ | pid <;>
      simp only [restartBackend, killStoredBackend, hb, List.nil_append,
        List.cons_append, List.mem_cons] at hp
    · rcases startBackend_events o _ _ hp with ⟨b, he⟩ | he
      · simp at he
      · simp only [Event.spawn.injEq] at he
        exact he.1
    · rcases hp with hp | hp
      · simp at hp
      · rcases startBackend_events o _ _ hp with ⟨b, he⟩ | he
        · simp at he
        · simp only [Event.spawn.injEq] at he
          exact he.1

/-- Witness for C5: invoking a restart channel for the external runtime
is rejected with the defined error. -/
theorem bridge_restart_external_rejected_witness :
    ipcInvoke oDown "restart-runtime" [] "userData" initState =
      Except.error ("No handler registered for " ++ "restart-runtime") :=
  (bridge_restart_external_rejected oDown "restart-runtime" [] "userData"
    initState (by decide)).1

/-- C6: the startup sequence decomposes into three phases in this order:
first the runtime phase, whose first event probes the runtime port and
which attempts a detached fallback launch exactly when that probe fails;
then the backend phase, whose first event probes the backend port for
every oracle — so the backend start runs regardless of the runtime
outcome; and last the asset-server phase, which is empty unless
development mode is active, and in development mode begins by probing
the asset-server port.  Each phase contains only its own probes, its own
spawns and error boxes, so no phase anticipates a later step. -/
theorem whenReady_sequencing (o : Oracle) (dev : Bool) (s : SysState) :
    ∃ t1 t2 t3,
      (whenReady o dev s).2 = t1 ++ t2 ++ t3 ∧
      t1.head? = some (Event.probe OLLAMA_PORT (checkService (o s.probeCtr))) ∧
      ((∃ p, Event.spawnDetached "ollama" p ∈ t1) ↔
        checkService (o s.probeCtr) = false) ∧
      (∀ e ∈ t1, (∃ b, e = Event.probe OLLAMA_PORT b) ∨
        (∃ p, e = Event.spawnDetached "ollama" p) ∨ (∃ m, e = Event.errorBox m)) ∧
      (∃ b, t2.head? = some (Event.probe BACKEND_PORT b)) ∧
      (∀ e ∈ t2, (∃ b, e = Event.probe BACKEND_PORT b) ∨
        (∃ p, e = Event.spawn "backend" p) ∨ (∃ m, e = Event.errorBox m)) ∧
      (dev = false → t3 = []) ∧
      (dev = true → ∃ b, t3.head? = some (Event.probe FRONTEND_PORT b)) ∧
      (∀ e ∈ t3, (∃ b, e = Event.probe FRONTEND_PORT b) ∨
        (∃ p, e = Event.spawn "frontend" p)) := by
  refine ⟨(checkOllama o s).2.2 ++
      (if (checkOllama o s).1 then ([] : List Event)
        else [Event.errorBox "Ollama Not Found"]),
    (startBackend o (checkOllama o s).2.1).2.2 ++
      (if (startBackend o (checkOllama o s).2.1).1 then ([] : List Event)
        else [Event.errorBox "Backend Error"]),
    (startFrontend o dev (startBackend o (checkOllama o s).2.1).2.1).2.2,
    ?_, ?_, ?_, ?_, ?_, ?_, ?_, ?_, ?_⟩
  · simp [whenReady, List.append_assoc]
  · exact Option.mem_def.mp (List.mem_head?_append_of_mem_head?
      (Option.mem_def.mpr (checkOllama_head o s)))
  · constructor
    · rintro ⟨p, hp⟩
      rcases List.mem_append.mp hp with hp | hp
      · exact (checkOllama_fallback_iff o s).mp ⟨p, hp⟩
      · cases hb : (checkOllama o s).1 <;> simp [hb] at hp
    · intro hf
      obtain ⟨p, hp⟩ := (checkOllama_fallback_iff o s).mpr hf
      exact ⟨p, List.mem_append.mpr (Or.inl hp)⟩
  · intro e he
    rcases List.mem_append.mp he with he | he
    · rcases checkOllama_events o s e he with ⟨b, hb⟩ | hb
      · exact Or.inl ⟨b, hb⟩
      · exact Or.inr (Or.inl ⟨_, hb⟩)
    · cases hb : (checkOllama o s).1 <;> simp [hb] at he
      exact Or.inr (Or.inr ⟨_, he⟩)
  · exact ⟨checkService (o (checkOllama o s).2.1.probeCtr),
      Option.mem_def.mp (List.mem_head?_append_of_mem_head?
        (Option.mem_def.mpr (startBackend_head o (checkOllama o s).2.1)))⟩
  · intro e he
    rcases List.mem_append.mp he with he | he
    · rcases startBackend_events o _ e he with ⟨b, hb⟩ | hb
      · exact Or.inl ⟨b, hb⟩
      · exact Or.inr (Or.inl ⟨_, hb⟩)
    · cases hb : (startBackend o (checkOllama o s).2.1).1 <;> simp [hb] at he
      exact Or.inr (Or.inr ⟨_, he⟩)
  · intro hdev
    subst hdev
    rw [startFrontend_not_dev]
  · intro hdev
    subst hdev
    exact ⟨checkService (o (startBackend o (checkOllama o s).2.1).2.1.probeCtr),
      startFrontend_head_dev o _⟩
  · intro e he
    rcases startFrontend_events o dev _ e he with ⟨b, hb⟩ | hb
    · exact Or.inl ⟨b, hb⟩
    · exact Or.inr ⟨_, hb⟩
